import Mathlib

/-!
Shallow embedding of the retrieval-augmented tutoring core of the
`cbse-6to12` backend: `tutor/services/rag_service.py`,
`tutor/services/groq_service.py` and `tutor/views.py`.

External collaborators (hashlib.md5, the sentence-transformers embedding
model, the Pinecone index, the Groq completion client, the Django cache)
are modelled as explicit function parameters ("oracles"); Python
exceptions are modelled with `Except`/outcome sums; Python truthiness of
optional values is modelled explicitly.  Floating-point similarity scores
are modelled as exact rationals (the only operation the code performs on
them is an order comparison against the constant 0.3 and a rounding to
four decimal places).
-/

/-- Python `str(x)` for an `Optional[int]` interpolated into an f-string:
`None` prints as `"None"`, an int prints as its decimal representation. -/
def pyStrOptInt : Option Int → String
  | none => "None"
  | some n => toString n

/-- Python `str(x)` for an `Optional[str]` interpolated into an f-string. -/
def pyStrOptStr : Option String → String
  | none => "None"
  | some s => s

/-- Python truthiness of an `Optional[str]`: `None` and `""` are falsy. -/
def pyTruthyStr : Option String → Bool
  | none => false
  | some s => !(s == "")

/-- Python truthiness of an `Optional[int]`: `None` and `0` are falsy. -/
def pyTruthyInt : Option Int → Bool
  | none => false
  | some n => !(n == 0)

/-- Python `a or default` on an `Optional[str]`: falsy left operand selects
the default. -/
def pyOrStr (o : Option String) (d : String) : String :=
  match o with
  | none => d
  | some s => if s == "" then d else s

/-- Embedding of `rag_service._cache_key` (rag_service.py lines 48-50):
retrieval-cache
fingerprint `"kb:" + md5("retrieve:{question}:{class_no}:{subject}")`.
`md5` stands for `hashlib.md5(...).hexdigest()`, an external pure function. -/
def _cache_key (md5 : String → String) (question : String)
    (class_no : Option Int) (subject : Option String) : String :=
  let raw := "retrieve:" ++ question ++ ":" ++ pyStrOptInt class_no ++ ":" ++
    pyStrOptStr subject
  "kb:" ++ md5 raw

/-- Embedding of `views._answer_cache_key` (views.py lines 23-25):
answer-cache
fingerprint `"tutor:" + md5("answer:{question}:{class_no}:{subject}")`. -/
def _answer_cache_key (md5 : String → String) (question : String)
    (class_no : Option Int) (subject : Option String) : String :=
  let raw := "answer:" ++ question ++ ":" ++ pyStrOptInt class_no ++ ":" ++
    pyStrOptStr subject
  "tutor:" ++ md5 raw

/-- Metadata dict of a Pinecone match; each field is `Option` because the
Python code reads it with `meta.get(key, default)`. -/
structure MatchMeta where
  text : Option String
  chapter_title : Option String
  source : Option String
  class_field : Option Int
  subject : Option String
deriving DecidableEq, Repr

/-- The empty metadata dict, the default used when a match has none. -/
def MatchMeta.empty : MatchMeta :=
  { text := none, chapter_title := none, source := none,
    class_field := none, subject := none }

/-- One ranked match returned by `index.query`; score and metadata are read
with `.get` defaults (0 and the empty dict). -/
structure VectorMatch where
  score : Option ℚ
  metadata : Option MatchMeta
deriving DecidableEq, Repr

/-- A context chunk dict as produced by `retrieve_context`
(rag_service.py lines 104-111). -/
structure ContextChunk where
  text : String
  score : ℚ
  chapter_title : String
  source : String
  class_no : Option Int
  subject : Option String
deriving DecidableEq, Repr

/-- Python `round(x, 4)` on an exact value: round half to even
(round-half-to-even, as Python does on exact ties) at four decimal places. -/
def pyRound4 (x : ℚ) : ℚ :=
  let y := x * 10000
  let f : ℤ := ⌊y⌋
  let r := y - f
  let n : ℤ :=
    if r < 1/2 then f
    else if 1/2 < r then f + 1
    else if f % 2 = 0 then f else f + 1
  (n : ℚ) / 10000

/-- Projection of a surviving match into a chunk dict
(rag_service.py lines 103-111). -/
def projectMatch (m : VectorMatch) : ContextChunk :=
  let meta := m.metadata.getD MatchMeta.empty
  { text := meta.text.getD ""
    score := pyRound4 (m.score.getD 0)
    chapter_title := meta.chapter_title.getD ""
    source := meta.source.getD ""
    class_no := meta.class_field
    subject := meta.subject }

/-- The metadata filter dict built by `_build_filter`: at most an equality
constraint on `class` and one on `subject`. -/
structure PineFilter where
  classEq : Option Int
  subjectEq : Option String
deriving DecidableEq, Repr

/-- Embedding of `rag_service._build_filter` (lines 54-60): add
`class`/`subject`
equality constraints for truthy arguments; an empty dict becomes `None`. -/
def _build_filter (class_no : Option Int) (subject : Option String) :
    Option PineFilter :=
  let cf := if pyTruthyInt class_no then class_no else none
  let sf := if pyTruthyStr subject then subject else none
  if cf = none ∧ sf = none then none else some ⟨cf, sf⟩

/-- Observable side effects of one `retrieve_context` call, in order. -/
inductive RetEvent where
  | embedCall
  | indexQueryCall
  | cacheSetChunks (key : String) (chunks : List ContextChunk) (ttl : Nat)
deriving DecidableEq, Repr

/-- Python `top_k = top_k or settings.TOP_K_RETRIEVAL` (rag_service.py
line 74):
Python truthiness, so `None` and `0` both select the default. -/
def effTopK (top_k : Option Nat) (default_k : Nat) : Nat :=
  match top_k with
  | none => default_k
  | some k => if k = 0 then default_k else k

/-- The survivor predicate of the confidence filter
(rag_service.py lines 100-102): a match is kept iff its score
(read with default 0) is not `< 0.3`. -/
def keepMatch (m : VectorMatch) : Bool :=
  !decide (m.score.getD 0 < 3/10)

/-- Embedding of `rag_service.retrieve_context` (lines 64-114).

Oracles: `rcacheGet` is `cache.get` on the retrieval cache; `embed` is
`get_embedding_model()` + `model.encode(question, ...)` (and the
`get_pinecone_index()` handle initialisation), whose exceptions are NOT
caught by the function and therefore surface as `Except.error`;
`indexQuery` is `index.query(vector, top_k, include_metadata, filter)`,
whose exceptions ARE caught (lines 87-96) and turned into an empty list.

Returns the chunk list together with the ordered list of observable side
effects (embedding computation, vector-index query, retrieval-cache
write with its TTL of 1800 seconds). -/
def retrieve_context (md5 : String → String)
    (rcacheGet : String → Option (List ContextChunk))
    (embed : String → Except String (List ℚ))
    (indexQuery : List ℚ → Nat → Option PineFilter →
      Except String (List VectorMatch))
    (question : String) (class_no : Option Int := none)
    (subject : Option String := none) (top_k : Option Nat := none)
    (TOP_K_RETRIEVAL : Nat := 5) :
    Except String (List ContextChunk × List RetEvent) :=
  let topK := effTopK top_k TOP_K_RETRIEVAL
  let cache_key := _cache_key md5 question class_no subject
  match rcacheGet cache_key with
  | some cached => Except.ok (cached, [])
  | none =>
    match embed question with
    | Except.error e => Except.error e
    | Except.ok vector =>
      match indexQuery vector topK (_build_filter class_no subject) with
      | Except.error _ => Except.ok ([], [RetEvent.embedCall, RetEvent.indexQueryCall])
      | Except.ok ms =>
        let chunks := (ms.filter keepMatch).map projectMatch
        Except.ok (chunks,
          [RetEvent.embedCall, RetEvent.indexQueryCall,
           RetEvent.cacheSetChunks cache_key chunks 1800])

/-- Model identifiers from `cbse_tutor/settings.py` (lines 158-169); the
defaults are the shipped values, but every theorem below is generic in
them. -/
structure Settings where
  PRIMARY_MODEL : String := "llama-3.1-8b-instant"
  VISION_MODEL : String := "meta-llama/llama-4-scout-17b-16e-instruct"
  FALLBACK_MODEL : String := "gemma2-9b-it"
  TOP_K_RETRIEVAL : Nat := 5
deriving Repr

/-- ASCII fragment of Python `str.title()`: the first letter of each
alphabetic run is uppercased, the rest lowercased. -/
def pyTitleGo : Bool → List Char → List Char
  | _, [] => []
  | prevAlpha, c :: cs =>
    let isAl := c.isAlpha
    (if isAl then (if prevAlpha then c.toLower else c.toUpper) else c) ::
      pyTitleGo isAl cs

/-- Python `s.title()` (ASCII). -/
def pyTitle (s : String) : String := ⟨pyTitleGo false s.data⟩

/-- Embedding of `groq_service.build_system_prompt` (lines 31-48). -/
def build_system_prompt (class_no : Option Int) (subject : Option String)
    (language : String) : String :=
  let class_str :=
    if pyTruthyInt class_no then "Class " ++ toString (class_no.getD 0)
    else "Classes 6–12"
  let subj_str :=
    pyTitle ((pyOrStr subject "Science and Social Science").replace "_" " ")
  let lang_note :=
    if language == "hindi" then
      "Respond in Hindi (Devanagari script). Keep scientific terms and formulae in English."
    else
      "Respond in clear, simple English suitable for school students."
  "You are an expert CBSE " ++ class_str ++ " " ++ subj_str ++
    " tutor. You ONLY answer academic questions related to the CBSE Classes 6–12 syllabus.\n\n" ++
    "STRICT GUARDRAILS & RULES:\n" ++
    "1. SUBJECT LOCK: Strictly refuse to discuss anything unrelated to school education (e.g., politics, movies, celebrities, dating, games, or general non-academic gossip). For off-topic queries, say: \"I am a CBSE Tutor and can only assist you with academic doubts related to your syllabus.\"\n" ++
    "2. NO HALLUCINATION: If the information is not in the provided CONTEXT AND you don\x27t have 100% factual academic knowledge about it, simply state that you don\x27t know rather than guessing.\n" ++
    "3. DEPTH: Provide step-by-step explanations for mathematical and scientific concepts. Use simple language for Class 6 and professional language for Class 12.\n" ++
    "4. IMAGE ANALYSIS: If provided an image (e.g., a math problem or a diagram), analyze it carefully and solve it step-by-step.\n" ++
    "5. LANGUAGE: " ++ lang_note ++ "\n" ++
    "6. CITATION: If using the provided context, mention the chapter/source at the end."

/-- Tag selection of groq_service.py line 57, chapter_title with fallback
onto source: Python `or` falls through on an empty string. -/
def chunkTag (c : ContextChunk) : String :=
  if c.chapter_title == "" then c.source else c.chapter_title

/-- The numbered context header of groq_service.py line 58. -/
def chunkHeader (i : Nat) (c : ContextChunk) : String :=
  let tag := chunkTag c
  if tag == "" then "--- Context " ++ toString i ++ " ---"
  else "--- Context " ++ toString i ++ " [" ++ tag ++ "] ---"

/-- The `parts` list built by the `enumerate(context_chunks, 1)` loop of
groq_service.py lines 55-59, started at counter value `i`. -/
def contextPartsFrom (i : Nat) : List ContextChunk → List String
  | [] => []
  | c :: cs => (chunkHeader i c ++ "\n" ++ c.text) :: contextPartsFrom (i + 1) cs

/-- The fixed sentence rendered when no context chunk survives
(groq_service.py line 53). -/
def noContextSentence : String :=
  "No direct matches found in the specific textbook knowledge base for this query."

/-- Embedding of `groq_service.build_user_prompt` (lines 51-66). -/
def build_user_prompt (question : String) (context_chunks : List ContextChunk) :
    String :=
  let context_text :=
    if context_chunks.isEmpty then noContextSentence
    else String.intercalate "\n\n" (contextPartsFrom 1 context_chunks)
  "CONTEXT FROM TEXTBOOKS:\n" ++ context_text ++
    "\n\nSTUDENT QUESTION:\n" ++ question ++
    "\n\nPlease provide a helpful and precise tutoring response."

/-- Content of one chat message: plain text, or the two-part
(image URL + text) payload of a vision message. -/
inductive MsgContent where
  | text (s : String)
  | imageAndText (image_url : String) (body : String)
deriving DecidableEq, Repr

/-- One role-tagged chat message. -/
structure Message where
  role : String
  content : MsgContent
deriving DecidableEq, Repr

/-- Embedding of `groq_service.build_vision_messages` (lines 69-79). -/
def build_vision_messages (system user_text image_b64 mime : String) :
    List Message :=
  [⟨"system", MsgContent.text system⟩,
   ⟨"user", MsgContent.imageAndText
     ("data:" ++ mime ++ ";base64," ++ image_b64) user_text⟩]

/-- The message list passed to the completion client
(groq_service.py lines 101-107 and 157-163). -/
def buildMessages (system user_text : String) (image_base64 : Option String)
    (image_mime : String) : List Message :=
  if pyTruthyStr image_base64 then
    build_vision_messages system user_text (image_base64.getD "") image_mime
  else
    [⟨"system", MsgContent.text system⟩, ⟨"user", MsgContent.text user_text⟩]

/-- The model chosen for the first completion attempt
(groq_service.py lines 96-97 and 152-153): the vision model when an image
is present (Python-truthy), else the primary model. -/
def chosenModel (S : Settings) (image_base64 : Option String) : String :=
  if pyTruthyStr image_base64 then S.VISION_MODEL else S.PRIMARY_MODEL

/-- Outcome of one streaming completion call: the per-chunk
`chunk.choices[0].delta.content` values delivered before the stream either
finishes normally (`ok`) or raises (`raises`); a call that raises before
yielding anything is `raises []`. -/
inductive StreamOutcome where
  | ok (chunks : List (Option String))
  | raises (chunks : List (Option String))
deriving DecidableEq, Repr

/-- Tokens actually yielded from a chunk sequence: the loop
`if token: yield token` skips `None` and empty deltas
(groq_service.py lines 120-123). -/
def yieldedTokens (chunks : List (Option String)) : List String :=
  chunks.filterMap fun c =>
    match c with
    | none => none
    | some t => if t == "" then none else some t

/-- The fixed error token yielded when the fallback is exhausted in the
streaming path (groq_service.py lines 136 and 138). -/
def streamErrorToken : String :=
  "\n[Error: AI service temporarily unavailable. Please try again.]"

/-- Embedding of `groq_service.stream_response` (lines 83-138), fully
drained.

`call` is the Groq chat-completions client at `stream=True`.  The first
component of the result is the list of tokens yielded to the consumer,
in order; the second component instruments which models were invoked, in
order.  The function is total: every provider failure is caught, so no
exception reaches the caller. -/
def stream_response (S : Settings)
    (call : String → List Message → StreamOutcome)
    (question : String) (context_chunks : List ContextChunk)
    (class_no : Option Int := none) (subject : Option String := none)
    (language : String := "english") (image_base64 : Option String := none)
    (image_mime : String := "image/jpeg") : List String × List String :=
  let model := chosenModel S image_base64
  let system := build_system_prompt class_no subject language
  let user_text := build_user_prompt question context_chunks
  let messages := buildMessages system user_text image_base64 image_mime
  match call model messages with
  | StreamOutcome.ok chunks => (yieldedTokens chunks, [model])
  | StreamOutcome.raises chunks =>
    let ys := yieldedTokens chunks
    if model ≠ S.FALLBACK_MODEL then
      match call S.FALLBACK_MODEL messages with
      | StreamOutcome.ok chunks2 =>
        (ys ++ yieldedTokens chunks2, [model, S.FALLBACK_MODEL])
      | StreamOutcome.raises chunks2 =>
        (ys ++ yieldedTokens chunks2 ++ [streamErrorToken],
         [model, S.FALLBACK_MODEL])
    else
      (ys ++ [streamErrorToken], [model])

/-- Outcome of one non-streaming completion call:
`resp.choices[0].message.content` (possibly `None`), or an exception. -/
inductive CompleteOutcome where
  | ok (content : Option String)
  | raises
deriving DecidableEq, Repr

/-- The fixed error answer of the non-streaming path
(groq_service.py line 185). -/
def getErrorAnswer : String := "[Error: AI service unavailable]"

/-- Embedding of `groq_service.get_response` (lines 142-185).

Returns `((answer_text, model_used), models_invoked)`; the last component
instruments which models were invoked, in order.  `content or ""` maps a
`None` content to the empty string.  Total: both failures are caught. -/
def get_response (S : Settings)
    (call : String → List Message → CompleteOutcome)
    (question : String) (context_chunks : List ContextChunk)
    (class_no : Option Int := none) (subject : Option String := none)
    (language : String := "english") (image_base64 : Option String := none)
    (image_mime : String := "image/jpeg") : (String × String) × List String :=
  let model := chosenModel S image_base64
  let system := build_system_prompt class_no subject language
  let user_text := build_user_prompt question context_chunks
  let messages := buildMessages system user_text image_base64 image_mime
  match call model messages with
  | CompleteOutcome.ok content => ((content.getD "", model), [model])
  | CompleteOutcome.raises =>
    if model ≠ S.FALLBACK_MODEL then
      match call S.FALLBACK_MODEL messages with
      | CompleteOutcome.ok content =>
        ((content.getD "", S.FALLBACK_MODEL), [model, S.FALLBACK_MODEL])
      | CompleteOutcome.raises =>
        ((getErrorAnswer, model), [model, S.FALLBACK_MODEL])
    else
      ((getErrorAnswer, model), [model])

/-- Fields of the `Doubt.objects.create(...)` record of views.py lines
86-96 and
108-119 (fields the view sets; `model_used` is absent in the streaming
path and therefore `none` there). -/
structure DoubtRecord where
  question : String
  answer : String
  class_no : Option Int
  subject : Option String
  language : String
  has_image : Bool
  sources : List ContextChunk
  from_cache : Bool
  model_used : Option String
deriving DecidableEq, Repr

/-- Observable effects of one `AskView.post` request, in order:
answer-cache reads and writes (with TTL), the retrieval call, each token
yielded to the HTTP consumer, and the persisted doubt record. -/
inductive ViewEvent where
  | answerCacheGet (key : String)
  | retrieveContext
  | yieldToken (t : String)
  | answerCacheSet (key : String) (value : String) (ttl : Nat)
  | createDoubt (d : DoubtRecord)
deriving DecidableEq, Repr

/-- The value returned to the HTTP client: a streamed body, or the JSON
of the non-streaming `Response` (answer, from_cache, model_used when
present, sources). -/
inductive AskOutcome where
  | streamed
  | direct (answer : String) (from_cache : Bool) (model_used : Option String)
      (sources : List ContextChunk)
deriving DecidableEq, Repr

/-- The answer-cache lookup of views.py lines 50-57: performed only for
image-free requests, and a hit requires a Python-truthy cached value
(`if cached:`), so a cached empty string behaves as a miss. -/
def answerCacheHit (md5 : String → String) (acacheGet : String → Option String)
    (question : String) (class_no : Option Int) (subject : Option String)
    (image_b64 : Option String) : Option String :=
  if pyTruthyStr image_b64 then none
  else
    match acacheGet (_answer_cache_key md5 question class_no subject) with
    | none => none
    | some v => if v == "" then none else some v

/-- Embedding of `AskView.post` (views.py lines 34-127), after successful
input
validation, with the streaming response fully drained by the consumer.

Oracles: `md5` the hash, `acacheGet` the answer-cache `cache.get`,
`rcacheGet`/`embed`/`indexQuery` the collaborators of `retrieve_context`,
`scall`/`gcall` the streaming and non-streaming completion clients.
An exception escaping `retrieve_context` escapes the view (`Except.error`);
otherwise the result is the ordered event trace plus the client-visible
outcome. -/
def askPost (S : Settings) (md5 : String → String)
    (acacheGet : String → Option String)
    (rcacheGet : String → Option (List ContextChunk))
    (embed : String → Except String (List ℚ))
    (indexQuery : List ℚ → Nat → Option PineFilter →
      Except String (List VectorMatch))
    (scall : String → List Message → StreamOutcome)
    (gcall : String → List Message → CompleteOutcome)
    (question : String) (class_no : Option Int) (subject : Option String)
    (language : String) (image_b64 : Option String) (image_mime : String)
    (do_stream : Bool) : Except String (List ViewEvent × AskOutcome) :=
  -- views.py lines 50-53: `cache_key` stays `None` for image-bearing requests
  let cache_key : Option String :=
    if pyTruthyStr image_b64 then none
    else some (_answer_cache_key md5 question class_no subject)
  let getEvents : List ViewEvent :=
    match cache_key with
    | some key => [ViewEvent.answerCacheGet key]
    | none => []
  match answerCacheHit md5 acacheGet question class_no subject image_b64 with
  | some cached =>
    -- views.py lines 56-63: serve from cache, no retrieval, no save
    if do_stream then
      Except.ok (getEvents ++ [ViewEvent.yieldToken cached], AskOutcome.streamed)
    else
      Except.ok (getEvents, AskOutcome.direct cached true none [])
  | none =>
    match retrieve_context md5 rcacheGet embed indexQuery question class_no
        subject none S.TOP_K_RETRIEVAL with
    | Except.error e => Except.error e
    | Except.ok (context_chunks, _) =>
      if do_stream then
        -- views.py lines 69-98: stream, then cache + save after exhaustion
        let tokens := (stream_response S scall question context_chunks class_no
          subject language image_b64 image_mime).1
        let full_answer := String.join tokens
        let cacheEvents : List ViewEvent :=
          match cache_key with
          | some key =>
            if full_answer == "" then []
            else [ViewEvent.answerCacheSet key full_answer 3600]
          | none => []
        let doubt : DoubtRecord :=
          { question := question, answer := full_answer, class_no := class_no,
            subject := subject, language := language,
            has_image := pyTruthyStr image_b64, sources := context_chunks,
            from_cache := false, model_used := none }
        Except.ok (getEvents ++ [ViewEvent.retrieveContext] ++
          tokens.map ViewEvent.yieldToken ++ cacheEvents ++
          [ViewEvent.createDoubt doubt], AskOutcome.streamed)
      else
        -- views.py lines 100-127: direct answer, cache + save synchronously
        let ans := get_response S gcall question context_chunks class_no
          subject language image_b64 image_mime
        let answer := ans.1.1
        let model_used := ans.1.2
        let cacheEvents : List ViewEvent :=
          match cache_key with
          | some key => [ViewEvent.answerCacheSet key answer 3600]
          | none => []
        let doubt : DoubtRecord :=
          { question := question, answer := answer, class_no := class_no,
            subject := subject, language := language,
            has_image := pyTruthyStr image_b64, sources := context_chunks,
            from_cache := false, model_used := some model_used }
        Except.ok (getEvents ++ [ViewEvent.retrieveContext] ++ cacheEvents ++
          [ViewEvent.createDoubt doubt],
          AskOutcome.direct answer false (some model_used) context_chunks)

/-- A concrete chunk used by witness instantiations. -/
def sampleChunk : ContextChunk :=
  { text := "cached chunk", score := 1/2, chapter_title := "",
    source := "", class_no := none, subject := none }

/-- A concrete chunk with a chapter title, used by witness instantiations. -/
def titledChunk : ContextChunk :=
  { text := "Photosynthesis converts light energy.", score := 9/10,
    chapter_title := "Life Processes", source := "bio.pdf",
    class_no := some 10, subject := some "science" }

/-- A concrete match below the confidence threshold (score 0.29). -/
def matchLow : VectorMatch := { score := some (29/100), metadata := none }

/-- A concrete match exactly at the confidence threshold (score 0.30). -/
def matchBoundary : VectorMatch := { score := some (3/10), metadata := none }

/-- A concrete match above the confidence threshold (score 0.80). -/
def matchHigh : VectorMatch := { score := some (4/5), metadata := none }

/-- Claim C8: for every (question, class_no, subject) triple and any hash
function, the answer-cache key (`"tutor:" ++ md5 ("answer:...")`) and the
retrieval-cache key (`"kb:" ++ md5 ("retrieve:...")`) are never equal:
the two derivations live in distinct namespaces, so the two caches cannot
collide. -/
theorem C8_cache_namespaces_disjoint (md5 : String → String) (question : String)
    (class_no : Option Int) (subject : Option String) :
    _answer_cache_key md5 question class_no subject ≠
      _cache_key md5 question class_no subject := by
  intro h
  have h2 := congrArg String.data h
  simp only [_answer_cache_key, _cache_key] at h2
  have ht : ("tutor:" ++ md5 ("answer:" ++ question ++ ":" ++
      pyStrOptInt class_no ++ ":" ++ pyStrOptStr subject)).data =
      't' :: 'u' :: 't' :: 'o' :: 'r' :: ':' ::
        (md5 ("answer:" ++ question ++ ":" ++ pyStrOptInt class_no ++ ":" ++
          pyStrOptStr subject)).data := rfl
  have hk : ("kb:" ++ md5 ("retrieve:" ++ question ++ ":" ++
      pyStrOptInt class_no ++ ":" ++ pyStrOptStr subject)).data =
      'k' :: 'b' :: ':' ::
        (md5 ("retrieve:" ++ question ++ ":" ++ pyStrOptInt class_no ++ ":" ++
          pyStrOptStr subject)).data := rfl
  rw [ht, hk] at h2
  exact absurd (List.head_eq_of_cons_eq h2) (by decide)

/-- Claim C8 witness: the two keys differ at a concrete input (identity
stands in for the external md5 oracle). -/
theorem C8_witness :
    _answer_cache_key (fun s => s) "What is photosynthesis?" (some 10)
      (some "science") ≠
    _cache_key (fun s => s) "What is photosynthesis?" (some 10)
      (some "science") :=
  C8_cache_namespaces_disjoint (fun s => s) "What is photosynthesis?" (some 10)
    (some "science")

/-- Claim C3: the retrieval fingerprint is a pure, deterministic function of
(question, class_no, subject) — equal inputs give the identical key — and
while a cached entry is live (`cache.get` returns it), `retrieve_context`
returns exactly the cached chunk list verbatim with an empty side-effect
trace: no embedding computation, no vector-index query, no re-filtering and
no cache write. -/
theorem C3_fingerprint_deterministic_and_cache_hit (md5 : String → String)
    (rcacheGet : String → Option (List ContextChunk))
    (embed : String → Except String (List ℚ))
    (indexQuery : List ℚ → Nat → Option PineFilter →
      Except String (List VectorMatch))
    (q1 q2 : String) (c1 c2 : Option Int) (s1 s2 : Option String)
    (cached : List ContextChunk) (top_k : Option Nat) (TK : Nat)
    (hq : q1 = q2) (hc : c1 = c2) (hs : s1 = s2)
    (hhit : rcacheGet (_cache_key md5 q1 c1 s1) = some cached) :
    _cache_key md5 q1 c1 s1 = _cache_key md5 q2 c2 s2 ∧
    retrieve_context md5 rcacheGet embed indexQuery q1 c1 s1 top_k TK =
      Except.ok (cached, []) ∧
    (∀ chunks evts,
      retrieve_context md5 rcacheGet embed indexQuery q1 c1 s1 top_k TK =
        Except.ok (chunks, evts) →
      chunks = cached ∧ RetEvent.embedCall ∉ evts ∧
        RetEvent.indexQueryCall ∉ evts ∧
        (∀ k ch t, RetEvent.cacheSetChunks k ch t ∉ evts)) := by
  subst hq; subst hc; subst hs
  have hrun : retrieve_context md5 rcacheGet embed indexQuery q1 c1 s1 top_k TK =
      Except.ok (cached, []) := by
    simp only [retrieve_context]
    rw [hhit]
  refine ⟨rfl, hrun, ?_⟩
  intro chunks evts h
  rw [hrun] at h
  cases h
  simp

/-- Claim C3 witness: a concrete live cache entry is returned verbatim with
no side effects. -/
theorem C3_witness :
    retrieve_context (fun s => s) (fun _ => some [sampleChunk])
      (fun _ => Except.error "embedding must not run")
      (fun _ _ _ => Except.error "index must not run")
      "q" (some 8) (some "science") none 5 =
      Except.ok ([sampleChunk], []) :=
  (C3_fingerprint_deterministic_and_cache_hit (fun s => s)
    (fun _ => some [sampleChunk])
    (fun _ => Except.error "embedding must not run")
    (fun _ _ _ => Except.error "index must not run")
    "q" "q" (some 8) (some 8) (some "science") (some "science")
    [sampleChunk] none 5 rfl rfl rfl rfl).2.1

/-- Claim C2: on a cache miss with a successful embedding and index query,
every match with score < 0.30 contributes no chunk and every match with
score ≥ 0.30 contributes its projected chunk; the output is exactly the
kept matches, projected, in order, and a score of exactly 0.30 is kept
(the code discards only on the strict comparison `score < 0.3`). -/
theorem C2_confidence_threshold (md5 : String → String)
    (rcacheGet : String → Option (List ContextChunk))
    (embed : String → Except String (List ℚ))
    (indexQuery : List ℚ → Nat → Option PineFilter →
      Except String (List VectorMatch))
    (q : String) (cn : Option Int) (sub : Option String)
    (top_k : Option Nat) (TK : Nat) (vec : List ℚ) (ms : List VectorMatch)
    (hmiss : rcacheGet (_cache_key md5 q cn sub) = none)
    (hembed : embed q = Except.ok vec)
    (hquery : indexQuery vec (effTopK top_k TK) (_build_filter cn sub) =
      Except.ok ms) :
    retrieve_context md5 rcacheGet embed indexQuery q cn sub top_k TK =
      Except.ok ((ms.filter keepMatch).map projectMatch,
        [RetEvent.embedCall, RetEvent.indexQueryCall,
         RetEvent.cacheSetChunks (_cache_key md5 q cn sub)
           ((ms.filter keepMatch).map projectMatch) 1800]) ∧
    (∀ m ∈ ms, m.score.getD 0 < 3/10 → keepMatch m = false) ∧
    (∀ m ∈ ms, 3/10 ≤ m.score.getD 0 →
      projectMatch m ∈ (ms.filter keepMatch).map projectMatch) ∧
    ((ms.filter keepMatch).map projectMatch).length = ms.countP keepMatch ∧
    (∀ m ∈ ms, m.score.getD 0 = 3/10 →
      projectMatch m ∈ (ms.filter keepMatch).map projectMatch) := by
  refine ⟨?_, ?_, ?_, ?_, ?_⟩
  · simp only [retrieve_context, hmiss, hembed, hquery]
  · intro m _ hlt
    simp [keepMatch, hlt]
  · intro m hm hle
    exact List.mem_map_of_mem projectMatch
      (List.mem_filter.2 ⟨hm, by simp [keepMatch, not_lt.2 hle]⟩)
  · rw [List.length_map, ← List.countP_eq_length_filter]
  · intro m hm heq
    exact List.mem_map_of_mem projectMatch
      (List.mem_filter.2 ⟨hm, by simp [keepMatch, heq]⟩)

/-- Claim C2 witness: with three concrete matches of scores 0.29, 0.30 and
0.80, the output is the kept matches projected in order, and the
boundary-score match (exactly 0.30) is present in the output. -/
theorem C2_witness :
    retrieve_context (fun s => s) (fun _ => none) (fun _ => Except.ok [1])
      (fun _ _ _ => Except.ok [matchLow, matchBoundary, matchHigh])
      "q" none none none 5 =
      Except.ok
        ((([matchLow, matchBoundary, matchHigh].filter keepMatch).map
            projectMatch),
         [RetEvent.embedCall, RetEvent.indexQueryCall,
          RetEvent.cacheSetChunks (_cache_key (fun s => s) "q" none none)
            (([matchLow, matchBoundary, matchHigh].filter keepMatch).map
              projectMatch) 1800]) ∧
    projectMatch matchBoundary ∈
      ([matchLow, matchBoundary, matchHigh].filter keepMatch).map
        projectMatch := by
  have h := C2_confidence_threshold (fun s => s) (fun _ => none)
    (fun _ => Except.ok [1])
    (fun _ _ _ => Except.ok [matchLow, matchBoundary, matchHigh])
    "q" none none none 5 [1] [matchLow, matchBoundary, matchHigh] rfl rfl rfl
  exact ⟨h.1, h.2.2.2.2 matchBoundary (by simp) rfl⟩

/-- Claim C4 counterexample: on a cache miss, a failing embedding provider
makes `retrieve_context` raise to its caller (the `try`/`except` of
rag_service.py lines 87-96 wraps only the `index.query` call, not
`get_embedding_model`/`get_pinecone_index`/`model.encode`), contradicting
the claim that such a failure is recovered locally as an empty list. -/
theorem C4_counterexample :
    retrieve_context (fun s => s) (fun _ => none)
      (fun _ => Except.error "embedding provider down")
      (fun _ _ _ => Except.ok []) "q" none none none 5 =
      Except.error "embedding provider down" := rfl

/-- Claim C4 (amended): only a vector-index query failure is recovered
locally by returning an empty context list (with no retrieval-cache
write); an embedding-provider or index-handle failure propagates to the
caller as an error. -/
theorem C4_amended_failure_semantics (md5 : String → String)
    (rcacheGet : String → Option (List ContextChunk))
    (embed : String → Except String (List ℚ))
    (indexQuery : List ℚ → Nat → Option PineFilter →
      Except String (List VectorMatch))
    (q : String) (cn : Option Int) (sub : Option String)
    (top_k : Option Nat) (TK : Nat) (vec : List ℚ) (err : String)
    (hmiss : rcacheGet (_cache_key md5 q cn sub) = none) :
    (embed q = Except.ok vec →
      indexQuery vec (effTopK top_k TK) (_build_filter cn sub) =
        Except.error err →
      retrieve_context md5 rcacheGet embed indexQuery q cn sub top_k TK =
        Except.ok ([], [RetEvent.embedCall, RetEvent.indexQueryCall])) ∧
    (embed q = Except.error err →
      retrieve_context md5 rcacheGet embed indexQuery q cn sub top_k TK =
        Except.error err) := by
  constructor
  · intro hembed hfail
    simp only [retrieve_context, hmiss, hembed, hfail]
  · intro hembed
    simp only [retrieve_context, hmiss, hembed]

/-- The `parts` list has one entry per chunk. -/
theorem contextPartsFrom_length :
    ∀ (l : List ContextChunk) (n : Nat),
      (contextPartsFrom n l).length = l.length
  | [], _ => rfl
  | _ :: cs, n => by
    simp [contextPartsFrom, contextPartsFrom_length cs (n + 1)]

/-- Entry `i` of the `parts` list started at counter `n` renders chunk `i`
under the header numbered `n + i`. -/
theorem contextPartsFrom_get :
    ∀ (l : List ContextChunk) (n i : Nat) (h : i < l.length)
      (h2 : i < (contextPartsFrom n l).length),
      (contextPartsFrom n l).get ⟨i, h2⟩ =
        chunkHeader (n + i) (l.get ⟨i, h⟩) ++ "\n" ++ (l.get ⟨i, h⟩).text
  | c :: cs, n, 0, _, _ => by simp [contextPartsFrom]
  | c :: cs, n, i + 1, h, h2 => by
    have hi : i < cs.length := Nat.lt_of_succ_lt_succ h
    have hi2 : i < (contextPartsFrom (n + 1) cs).length := by
      simpa [contextPartsFrom] using Nat.lt_of_succ_lt_succ h2
    have := contextPartsFrom_get cs (n + 1) i hi hi2
    simpa [contextPartsFrom, Nat.add_right_comm n 1 i] using this

/-- Claim C4 (amended) witness: at a concrete input the failing index query
yields the empty list with no cache write, and a failing embedding
propagates. -/
theorem C4_witness :
    retrieve_context (fun s => s) (fun _ => none) (fun _ => Except.ok [1])
      (fun _ _ _ => Except.error "pinecone down") "q" none none none 5 =
      Except.ok ([], [RetEvent.embedCall, RetEvent.indexQueryCall]) :=
  (C4_amended_failure_semantics (fun s => s) (fun _ => none)
    (fun _ => Except.ok [1]) (fun _ _ _ => Except.error "pinecone down")
    "q" none none none 5 [1] "pinecone down" rfl).1 rfl rfl

/-- Streaming: the chosen model raises and is already the fallback model:
no retry, the yielded prefix is followed by the fixed error token. -/
theorem stream_response_first_raises_same (S : Settings)
    (scall : String → List Message → StreamOutcome)
    (q : String) (chunks : List ContextChunk) (cn : Option Int)
    (sub : Option String) (lang : String) (img : Option String) (mime : String)
    (c1 : List (Option String))
    (h1 : ∀ msgs, scall (chosenModel S img) msgs = StreamOutcome.raises c1)
    (heq : chosenModel S img = S.FALLBACK_MODEL) :
    stream_response S scall q chunks cn sub lang img mime =
      (yieldedTokens c1 ++ [streamErrorToken], [chosenModel S img]) := by
  have h1' : ∀ msgs, scall S.FALLBACK_MODEL msgs = StreamOutcome.raises c1 := by
    intro msgs; rw [← heq]; exact h1 msgs
  simp only [stream_response, heq, h1', ne_eq, not_true_eq_false, if_false]

/-- Streaming: the chosen model raises, the fallback is distinct and also
raises: both yielded prefixes are followed by the fixed error token, and
the client was invoked exactly once per model. -/
theorem stream_response_both_raise (S : Settings)
    (scall : String → List Message → StreamOutcome)
    (q : String) (chunks : List ContextChunk) (cn : Option Int)
    (sub : Option String) (lang : String) (img : Option String) (mime : String)
    (c1 c2 : List (Option String))
    (h1 : ∀ msgs, scall (chosenModel S img) msgs = StreamOutcome.raises c1)
    (h2 : ∀ msgs, scall S.FALLBACK_MODEL msgs = StreamOutcome.raises c2)
    (hne : chosenModel S img ≠ S.FALLBACK_MODEL) :
    stream_response S scall q chunks cn sub lang img mime =
      (yieldedTokens c1 ++ yieldedTokens c2 ++ [streamErrorToken],
       [chosenModel S img, S.FALLBACK_MODEL]) := by
  simp only [stream_response, h1, h2, ne_eq, hne, not_false_eq_true, if_true]

/-- Streaming: the chosen model raises, the distinct fallback succeeds:
its tokens are streamed after the yielded prefix, no error token. -/
theorem stream_response_fallback_ok (S : Settings)
    (scall : String → List Message → StreamOutcome)
    (q : String) (chunks : List ContextChunk) (cn : Option Int)
    (sub : Option String) (lang : String) (img : Option String) (mime : String)
    (c1 c2 : List (Option String))
    (h1 : ∀ msgs, scall (chosenModel S img) msgs = StreamOutcome.raises c1)
    (h2 : ∀ msgs, scall S.FALLBACK_MODEL msgs = StreamOutcome.ok c2)
    (hne : chosenModel S img ≠ S.FALLBACK_MODEL) :
    stream_response S scall q chunks cn sub lang img mime =
      (yieldedTokens c1 ++ yieldedTokens c2,
       [chosenModel S img, S.FALLBACK_MODEL]) := by
  simp only [stream_response, h1, h2, ne_eq, hne, not_false_eq_true, if_true]

/-- Non-streaming: the chosen model raises and is already the fallback
model: no retry, the fixed error answer is returned with the chosen model
as `model_used`. -/
theorem get_response_first_raises_same (S : Settings)
    (gcall : String → List Message → CompleteOutcome)
    (q : String) (chunks : List ContextChunk) (cn : Option Int)
    (sub : Option String) (lang : String) (img : Option String) (mime : String)
    (h1 : ∀ msgs, gcall (chosenModel S img) msgs = CompleteOutcome.raises)
    (heq : chosenModel S img = S.FALLBACK_MODEL) :
    get_response S gcall q chunks cn sub lang img mime =
      ((getErrorAnswer, chosenModel S img), [chosenModel S img]) := by
  have h1' : ∀ msgs, gcall S.FALLBACK_MODEL msgs = CompleteOutcome.raises := by
    intro msgs; rw [← heq]; exact h1 msgs
  simp only [get_response, heq, h1', ne_eq, not_true_eq_false, if_false]

/-- Non-streaming: the chosen model raises, the distinct fallback also
raises: the fixed error answer is returned, `model_used` is the originally
chosen model, and the client was invoked exactly once per model. -/
theorem get_response_both_raise (S : Settings)
    (gcall : String → List Message → CompleteOutcome)
    (q : String) (chunks : List ContextChunk) (cn : Option Int)
    (sub : Option String) (lang : String) (img : Option String) (mime : String)
    (h1 : ∀ msgs, gcall (chosenModel S img) msgs = CompleteOutcome.raises)
    (h2 : ∀ msgs, gcall S.FALLBACK_MODEL msgs = CompleteOutcome.raises)
    (hne : chosenModel S img ≠ S.FALLBACK_MODEL) :
    get_response S gcall q chunks cn sub lang img mime =
      ((getErrorAnswer, chosenModel S img),
       [chosenModel S img, S.FALLBACK_MODEL]) := by
  simp only [get_response, h1, h2, ne_eq, hne, not_false_eq_true, if_true]

/-- Non-streaming: the chosen model raises, the distinct fallback succeeds:
its answer is returned with the fallback model as `model_used`. -/
theorem get_response_fallback_ok (S : Settings)
    (gcall : String → List Message → CompleteOutcome)
    (q : String) (chunks : List ContextChunk) (cn : Option Int)
    (sub : Option String) (lang : String) (img : Option String) (mime : String)
    (content : Option String)
    (h1 : ∀ msgs, gcall (chosenModel S img) msgs = CompleteOutcome.raises)
    (h2 : ∀ msgs, gcall S.FALLBACK_MODEL msgs = CompleteOutcome.ok content)
    (hne : chosenModel S img ≠ S.FALLBACK_MODEL) :
    get_response S gcall q chunks cn sub lang img mime =
      ((content.getD "", S.FALLBACK_MODEL),
       [chosenModel S img, S.FALLBACK_MODEL]) := by
  simp only [get_response, h1, h2, ne_eq, hne, not_false_eq_true, if_true]

/-- Claim C6: for an empty chunk list `build_user_prompt` renders the fixed
"no context" sentence in the context block; for a non-empty chunk list the
rendered prompt is the context parts joined by blank lines, where part `i`
(zero-based) renders chunk `i` under its own header numbered `i + 1`
(so numbering starts at 1 and follows the input order), followed by the
literal question and the closing instruction. -/
theorem C6_user_prompt_rendering (q : String) (chunks : List ContextChunk) :
    (build_user_prompt q [] =
      "CONTEXT FROM TEXTBOOKS:\nNo direct matches found in the specific textbook knowledge base for this query." ++
        "\n\nSTUDENT QUESTION:\n" ++ q ++
        "\n\nPlease provide a helpful and precise tutoring response.") ∧
    (chunks ≠ [] →
      ∃ parts : List String,
        build_user_prompt q chunks =
          "CONTEXT FROM TEXTBOOKS:\n" ++ String.intercalate "\n\n" parts ++
            "\n\nSTUDENT QUESTION:\n" ++ q ++
            "\n\nPlease provide a helpful and precise tutoring response." ∧
        parts.length = chunks.length ∧
        (∀ (i : Nat) (h : i < chunks.length) (h2 : i < parts.length),
          parts.get ⟨i, h2⟩ =
            chunkHeader (i + 1) (chunks.get ⟨i, h⟩) ++ "\n" ++
              (chunks.get ⟨i, h⟩).text)) := by
  constructor
  · rfl
  · intro hne
    refine ⟨contextPartsFrom 1 chunks, ?_, contextPartsFrom_length chunks 1, ?_⟩
    · cases chunks with
      | nil => exact absurd rfl hne
      | cons c cs => rfl
    · intro i h h2
      rw [contextPartsFrom_get chunks 1 i h h2, Nat.add_comm 1 i]

/-- Claim C6 witness: the concrete two-chunk prompt for a concrete question
satisfies the rendering property. -/
theorem C6_witness :
    [titledChunk, sampleChunk] ≠ ([] : List ContextChunk) ∧
    ∃ parts : List String,
      build_user_prompt "What is photosynthesis?" [titledChunk, sampleChunk] =
        "CONTEXT FROM TEXTBOOKS:\n" ++ String.intercalate "\n\n" parts ++
          "\n\nSTUDENT QUESTION:\n" ++ "What is photosynthesis?" ++
          "\n\nPlease provide a helpful and precise tutoring response." ∧
      parts.length = [titledChunk, sampleChunk].length ∧
      (∀ (i : Nat) (h : i < [titledChunk, sampleChunk].length)
        (h2 : i < parts.length),
        parts.get ⟨i, h2⟩ =
          chunkHeader (i + 1) ([titledChunk, sampleChunk].get ⟨i, h⟩) ++ "\n" ++
            ([titledChunk, sampleChunk].get ⟨i, h⟩).text) :=
  ⟨by simp,
   (C6_user_prompt_rendering "What is photosynthesis?"
     [titledChunk, sampleChunk]).2 (by simp)⟩

/-- Claim C1: when the chosen model (vision model if an image is present,
else primary) raises, the completion client is invoked exactly once more,
against the fallback model, and never the same model twice (invocation
list `[chosen, fallback]` with distinct entries); if the chosen model IS
the fallback model, no retry occurs (invocation list `[chosen]`); if the
fallback attempt also raises, both paths yield/return their fixed
user-visible error sentence.  No exception reaches the caller in any of
these cases: `stream_response` and `get_response` are total functions in
this embedding precisely because groq_service.py catches every provider
error. -/
theorem C1_fallback_policy (S : Settings)
    (scall : String → List Message → StreamOutcome)
    (gcall : String → List Message → CompleteOutcome)
    (q : String) (chunks : List ContextChunk) (cn : Option Int)
    (sub : Option String) (lang : String) (img : Option String) (mime : String)
    (c1 : List (Option String))
    (hS : ∀ msgs, scall (chosenModel S img) msgs = StreamOutcome.raises c1)
    (hG : ∀ msgs, gcall (chosenModel S img) msgs = CompleteOutcome.raises) :
    (chosenModel S img ≠ S.FALLBACK_MODEL →
      (∀ c2, (∀ msgs, scall S.FALLBACK_MODEL msgs = StreamOutcome.raises c2) →
        stream_response S scall q chunks cn sub lang img mime =
          (yieldedTokens c1 ++ yieldedTokens c2 ++ [streamErrorToken],
           [chosenModel S img, S.FALLBACK_MODEL]) ∧
        (stream_response S scall q chunks cn sub lang img mime).2.Nodup) ∧
      (∀ c2, (∀ msgs, scall S.FALLBACK_MODEL msgs = StreamOutcome.ok c2) →
        stream_response S scall q chunks cn sub lang img mime =
          (yieldedTokens c1 ++ yieldedTokens c2,
           [chosenModel S img, S.FALLBACK_MODEL])) ∧
      ((∀ msgs, gcall S.FALLBACK_MODEL msgs = CompleteOutcome.raises) →
        get_response S gcall q chunks cn sub lang img mime =
          ((getErrorAnswer, chosenModel S img),
           [chosenModel S img, S.FALLBACK_MODEL]))) ∧
    (chosenModel S img = S.FALLBACK_MODEL →
      stream_response S scall q chunks cn sub lang img mime =
        (yieldedTokens c1 ++ [streamErrorToken], [chosenModel S img]) ∧
      get_response S gcall q chunks cn sub lang img mime =
        ((getErrorAnswer, chosenModel S img), [chosenModel S img])) := by
  constructor
  · intro hne
    refine ⟨?_, ?_, ?_⟩
    · intro c2 h2
      refine ⟨stream_response_both_raise S scall q chunks cn sub lang img mime
        c1 c2 hS h2 hne, ?_⟩
      rw [stream_response_both_raise S scall q chunks cn sub lang img mime
        c1 c2 hS h2 hne]
      simp [hne]
    · intro c2 h2
      exact stream_response_fallback_ok S scall q chunks cn sub lang img mime
        c1 c2 hS h2 hne
    · intro h2
      exact get_response_both_raise S gcall q chunks cn sub lang img mime
        hG h2 hne
  · intro heq
    exact ⟨stream_response_first_raises_same S scall q chunks cn sub lang img
      mime c1 hS heq,
      get_response_first_raises_same S gcall q chunks cn sub lang img mime
        hG heq⟩

/-- Claim C1 witness: with the shipped settings (primary
"llama-3.1-8b-instant", fallback "gemma2-9b-it") and a client that always
raises, the stream yields exactly the fixed error token and the invocation
list is `[primary, fallback]`; the non-streaming path returns the fixed
error answer. -/
theorem C1_witness :
    stream_response {} (fun _ _ => StreamOutcome.raises []) "q" [] none none
      "english" none "image/jpeg" =
      (yieldedTokens [] ++ yieldedTokens [] ++ [streamErrorToken],
       [chosenModel {} none, Settings.FALLBACK_MODEL {}]) ∧
    get_response {} (fun _ _ => CompleteOutcome.raises) "q" [] none none
      "english" none "image/jpeg" =
      ((getErrorAnswer, chosenModel {} none),
       [chosenModel {} none, Settings.FALLBACK_MODEL {}]) := by
  have h := C1_fallback_policy {} (fun _ _ => StreamOutcome.raises [])
    (fun _ _ => CompleteOutcome.raises) "q" [] none none "english" none
    "image/jpeg" [] (fun _ => rfl) (fun _ => rfl)
  have hne : chosenModel {} none ≠ Settings.FALLBACK_MODEL {} := by decide
  exact ⟨((h.1 hne).1 [] (fun _ => rfl)).1, (h.1 hne).2.2 (fun _ => rfl)⟩

/-- Claim C10: in the non-streaming path, when both the chosen model and the
distinct fallback model fail, the `model_used` value returned — and the one
persisted in the doubt record and reported in the response — is the
originally chosen model identifier; the fallback identifier is reported
only when the fallback attempt succeeds. -/
theorem C10_model_used_reporting (S : Settings) (md5 : String → String)
    (acacheGet : String → Option String)
    (rcacheGet : String → Option (List ContextChunk))
    (embed : String → Except String (List ℚ))
    (indexQuery : List ℚ → Nat → Option PineFilter →
      Except String (List VectorMatch))
    (scall : String → List Message → StreamOutcome)
    (gcall : String → List Message → CompleteOutcome)
    (q : String) (cn : Option Int) (sub : Option String) (lang : String)
    (img : Option String) (mime : String) (ctx : List ContextChunk)
    (re : List RetEvent)
    (hG : ∀ msgs, gcall (chosenModel S img) msgs = CompleteOutcome.raises)
    (hne : chosenModel S img ≠ S.FALLBACK_MODEL)
    (hmiss : answerCacheHit md5 acacheGet q cn sub img = none)
    (hret : retrieve_context md5 rcacheGet embed indexQuery q cn sub none
      S.TOP_K_RETRIEVAL = Except.ok (ctx, re)) :
    ((∀ msgs, gcall S.FALLBACK_MODEL msgs = CompleteOutcome.raises) →
      (get_response S gcall q ctx cn sub lang img mime).1 =
        (getErrorAnswer, chosenModel S img) ∧
      ∃ evts,
        askPost S md5 acacheGet rcacheGet embed indexQuery scall gcall q cn
          sub lang img mime false =
          Except.ok (evts,
            AskOutcome.direct getErrorAnswer false
              (some (chosenModel S img)) ctx) ∧
        (∀ d, ViewEvent.createDoubt d ∈ evts →
          d.model_used = some (chosenModel S img) ∧
            d.answer = getErrorAnswer)) ∧
    (∀ content, (∀ msgs, gcall S.FALLBACK_MODEL msgs =
        CompleteOutcome.ok content) →
      (get_response S gcall q ctx cn sub lang img mime).1 =
        (content.getD "", S.FALLBACK_MODEL)) := by
  constructor
  · intro h2
    have hget := get_response_both_raise S gcall q ctx cn sub lang img mime
      hG h2 hne
    constructor
    · rw [hget]
    · refine ⟨(if pyTruthyStr img then ([] : List ViewEvent)
          else [ViewEvent.answerCacheGet (_answer_cache_key md5 q cn sub)]) ++
          [ViewEvent.retrieveContext] ++
          (if pyTruthyStr img then ([] : List ViewEvent)
          else [ViewEvent.answerCacheSet (_answer_cache_key md5 q cn sub)
            getErrorAnswer 3600]) ++
          [ViewEvent.createDoubt
            { question := q, answer := getErrorAnswer, class_no := cn,
              subject := sub, language := lang,
              has_image := pyTruthyStr img, sources := ctx,
              from_cache := false,
              model_used := some (chosenModel S img) }], ?_, ?_⟩
      · cases hb : pyTruthyStr img <;>
          simp [askPost, hmiss, hret, hget, hb]
      · intro d hd
        cases hb : pyTruthyStr img <;> simp [hb] at hd <;>
          simp [hd]
  · intro content h2
    rw [get_response_fallback_ok S gcall q ctx cn sub lang img mime content
      hG h2 hne]

/-- Claim C10 witness: with the shipped settings and an always-raising
client, the non-streaming answer is the fixed error sentence and
`model_used` is the primary (originally chosen) model. -/
theorem C10_witness :
    (get_response {} (fun _ _ => CompleteOutcome.raises) "q" [] none none
      "english" none "image/jpeg").1 = (getErrorAnswer, chosenModel {} none) := by
  have h := C10_model_used_reporting {} (fun s => s) (fun _ => none)
    (fun _ => none) (fun _ => Except.ok [1]) (fun _ _ _ => Except.ok [])
    (fun _ _ => StreamOutcome.raises []) (fun _ _ => CompleteOutcome.raises)
    "q" none none "english" none "image/jpeg" []
    [RetEvent.embedCall, RetEvent.indexQueryCall,
     RetEvent.cacheSetChunks (_cache_key (fun s => s) "q" none none) [] 1800]
    (fun _ => rfl) (by decide) rfl rfl
  exact (h.1 (fun _ => rfl)).1

/-- Claim C5: in the streaming path (answer-cache miss, retrieval
succeeded), the event trace is exactly: the cache probe (when image-free),
the retrieval call, one yield per streamed token in order, then — only
after the whole token list — the answer-cache write (whose value is the
concatenation of exactly the yielded tokens, TTL 3600, skipped when the
concatenation is empty or an image is present) and the doubt-record
creation (whose `answer` is the same concatenation). -/
theorem C5_streaming_accumulation (S : Settings) (md5 : String → String)
    (acacheGet : String → Option String)
    (rcacheGet : String → Option (List ContextChunk))
    (embed : String → Except String (List ℚ))
    (indexQuery : List ℚ → Nat → Option PineFilter →
      Except String (List VectorMatch))
    (scall : String → List Message → StreamOutcome)
    (gcall : String → List Message → CompleteOutcome)
    (q : String) (cn : Option Int) (sub : Option String) (lang : String)
    (img : Option String) (mime : String) (ctx : List ContextChunk)
    (re : List RetEvent)
    (hmiss : answerCacheHit md5 acacheGet q cn sub img = none)
    (hret : retrieve_context md5 rcacheGet embed indexQuery q cn sub none
      S.TOP_K_RETRIEVAL = Except.ok (ctx, re)) :
    ∃ evts,
      askPost S md5 acacheGet rcacheGet embed indexQuery scall gcall q cn sub
        lang img mime true = Except.ok (evts, AskOutcome.streamed) ∧
      evts = (if pyTruthyStr img then ([] : List ViewEvent)
          else [ViewEvent.answerCacheGet (_answer_cache_key md5 q cn sub)]) ++
        [ViewEvent.retrieveContext] ++
        ((stream_response S scall q ctx cn sub lang img mime).1.map
          ViewEvent.yieldToken) ++
        (if pyTruthyStr img then ([] : List ViewEvent)
          else if String.join (stream_response S scall q ctx cn sub lang img
              mime).1 == "" then []
          else [ViewEvent.answerCacheSet (_answer_cache_key md5 q cn sub)
            (String.join (stream_response S scall q ctx cn sub lang img
              mime).1) 3600]) ++
        [ViewEvent.createDoubt
          { question := q,
            answer := String.join
              (stream_response S scall q ctx cn sub lang img mime).1,
            class_no := cn, subject := sub, language := lang,
            has_image := pyTruthyStr img, sources := ctx,
            from_cache := false, model_used := none }] ∧
      (∀ k v t, ViewEvent.answerCacheSet k v t ∈ evts →
        v = String.join (stream_response S scall q ctx cn sub lang img
          mime).1 ∧ t = 3600) ∧
      (∀ d, ViewEvent.createDoubt d ∈ evts →
        d.answer = String.join
          (stream_response S scall q ctx cn sub lang img mime).1) := by
  refine ⟨_, ?_, rfl, ?_, ?_⟩
  · cases hb : pyTruthyStr img <;>
      simp [askPost, hmiss, hret, hb]
  · intro k v t hmem
    cases hb : pyTruthyStr img <;> simp [hb] at hmem
    rcases hmem with ⟨hj, hk, hv, ht⟩
    exact ⟨hv, ht⟩
  · intro d hd
    cases hb : pyTruthyStr img <;> simp [hb] at hd <;> simp [hd]

/-- Claim C5 witness: with a concrete two-token stream, some event trace is
produced and every persisted doubt record carries the concatenation of the
yielded tokens as its answer. -/
theorem C5_witness :
    ∃ evts,
      askPost {} (fun s => s) (fun _ => none) (fun _ => none)
        (fun _ => Except.ok [1]) (fun _ _ _ => Except.ok [])
        (fun _ _ => StreamOutcome.ok [some "Photo", some "synthesis"])
        (fun _ _ => CompleteOutcome.raises) "q" none none "english" none
        "image/jpeg" true = Except.ok (evts, AskOutcome.streamed) ∧
      (∀ d, ViewEvent.createDoubt d ∈ evts →
        d.answer = String.join
          (stream_response {}
            (fun _ _ => StreamOutcome.ok [some "Photo", some "synthesis"])
            "q" [] none none "english" none "image/jpeg").1) := by
  obtain ⟨evts, h1, _, _, h4⟩ := C5_streaming_accumulation {} (fun s => s)
    (fun _ => none) (fun _ => none) (fun _ => Except.ok [1])
    (fun _ _ _ => Except.ok [])
    (fun _ _ => StreamOutcome.ok [some "Photo", some "synthesis"])
    (fun _ _ => CompleteOutcome.raises) "q" none none "english" none
    "image/jpeg" []
    [RetEvent.embedCall, RetEvent.indexQueryCall,
     RetEvent.cacheSetChunks (_cache_key (fun s => s) "q" none none) [] 1800]
    rfl rfl
  exact ⟨evts, h1, h4⟩

/-- Claim C7: for every request carrying a (truthy) image payload, the
answer cache is neither read nor written, in both the streaming and the
non-streaming path: no `answerCacheGet` and no `answerCacheSet` event
occurs in the trace. -/
theorem C7_image_requests_bypass_answer_cache (S : Settings)
    (md5 : String → String) (acacheGet : String → Option String)
    (rcacheGet : String → Option (List ContextChunk))
    (embed : String → Except String (List ℚ))
    (indexQuery : List ℚ → Nat → Option PineFilter →
      Except String (List VectorMatch))
    (scall : String → List Message → StreamOutcome)
    (gcall : String → List Message → CompleteOutcome)
    (q : String) (cn : Option Int) (sub : Option String) (lang : String)
    (img : Option String) (mime : String) (do_stream : Bool)
    (himg : pyTruthyStr img = true) :
    ∀ evts outcome,
      askPost S md5 acacheGet rcacheGet embed indexQuery scall gcall q cn sub
        lang img mime do_stream = Except.ok (evts, outcome) →
      (∀ k, ViewEvent.answerCacheGet k ∉ evts) ∧
      (∀ k v t, ViewEvent.answerCacheSet k v t ∉ evts) := by
  intro evts outcome h
  cases hR : retrieve_context md5 rcacheGet embed indexQuery q cn sub none
      S.TOP_K_RETRIEVAL with
  | error e =>
    rw [askPost] at h
    simp [answerCacheHit, himg, hR] at h
  | ok pr =>
    obtain ⟨ctx, re⟩ := pr
    rw [askPost] at h
    cases do_stream with
    | false =>
      simp [answerCacheHit, himg, hR] at h
      obtain ⟨rfl, rfl⟩ := h
      constructor
      · intro k
        simp
      · intro k v t
        simp
    | true =>
      simp [answerCacheHit, himg, hR] at h
      obtain ⟨rfl, rfl⟩ := h
      constructor
      · intro k
        simp
      · intro k v t
        simp

/-- Claim C7 witness: a concrete image-bearing streaming request produces a
trace with no answer-cache read or write. -/
theorem C7_witness :
    ∃ evts outcome,
      askPost {} (fun s => s) (fun _ => some "poisoned cache")
        (fun _ => none) (fun _ => Except.ok [1]) (fun _ _ _ => Except.ok [])
        (fun _ _ => StreamOutcome.ok [some "ans"])
        (fun _ _ => CompleteOutcome.ok (some "ans")) "q" none none "english"
        (some "IMGDATA") "image/jpeg" true = Except.ok (evts, outcome) ∧
      (∀ k, ViewEvent.answerCacheGet k ∉ evts) ∧
      (∀ k v t, ViewEvent.answerCacheSet k v t ∉ evts) := by
  refine ⟨_, _, rfl, ?_⟩
  exact C7_image_requests_bypass_answer_cache {} (fun s => s)
    (fun _ => some "poisoned cache") (fun _ => none) (fun _ => Except.ok [1])
    (fun _ _ _ => Except.ok []) (fun _ _ => StreamOutcome.ok [some "ans"])
    (fun _ _ => CompleteOutcome.ok (some "ans")) "q" none none "english"
    (some "IMGDATA") "image/jpeg" true rfl _ _ rfl

/-- Claim C9: on an image-free request whose chosen model and (distinct)
fallback model both fail at the completion call, the fixed error sentence
returned as the answer is itself written into the answer cache with the
standard TTL of 3600 seconds — in the streaming path (as the single
yielded error token, concatenated and cached) and in the non-streaming
path — and a subsequent identical request that finds that value live in
the answer cache is served it verbatim from cache, with no retrieval call
and no generation attempt. -/
theorem C9_error_sentence_is_cached (S : Settings) (md5 : String → String)
    (acacheGet : String → Option String)
    (rcacheGet : String → Option (List ContextChunk))
    (embed : String → Except String (List ℚ))
    (indexQuery : List ℚ → Nat → Option PineFilter →
      Except String (List VectorMatch))
    (scall : String → List Message → StreamOutcome)
    (gcall : String → List Message → CompleteOutcome)
    (q : String) (cn : Option Int) (sub : Option String) (lang : String)
    (img : Option String) (mime : String) (ctx : List ContextChunk)
    (re : List RetEvent)
    (himg : pyTruthyStr img = false)
    (hmiss : answerCacheHit md5 acacheGet q cn sub img = none)
    (hret : retrieve_context md5 rcacheGet embed indexQuery q cn sub none
      S.TOP_K_RETRIEVAL = Except.ok (ctx, re))
    (hne : chosenModel S img ≠ S.FALLBACK_MODEL)
    (hS1 : ∀ msgs, scall (chosenModel S img) msgs = StreamOutcome.raises [])
    (hS2 : ∀ msgs, scall S.FALLBACK_MODEL msgs = StreamOutcome.raises [])
    (hG1 : ∀ msgs, gcall (chosenModel S img) msgs = CompleteOutcome.raises)
    (hG2 : ∀ msgs, gcall S.FALLBACK_MODEL msgs = CompleteOutcome.raises) :
    (∃ evts,
      askPost S md5 acacheGet rcacheGet embed indexQuery scall gcall q cn sub
        lang img mime true = Except.ok (evts, AskOutcome.streamed) ∧
      ViewEvent.answerCacheSet (_answer_cache_key md5 q cn sub)
        streamErrorToken 3600 ∈ evts) ∧
    (∃ evts,
      askPost S md5 acacheGet rcacheGet embed indexQuery scall gcall q cn sub
        lang img mime false =
        Except.ok (evts,
          AskOutcome.direct getErrorAnswer false (some (chosenModel S img))
            ctx) ∧
      ViewEvent.answerCacheSet (_answer_cache_key md5 q cn sub)
        getErrorAnswer 3600 ∈ evts) ∧
    (∀ acacheGet2 : String → Option String,
      acacheGet2 (_answer_cache_key md5 q cn sub) = some streamErrorToken →
      askPost S md5 acacheGet2 rcacheGet embed indexQuery scall gcall q cn sub
        lang img mime true =
        Except.ok ([ViewEvent.answerCacheGet (_answer_cache_key md5 q cn sub),
          ViewEvent.yieldToken streamErrorToken], AskOutcome.streamed)) ∧
    (∀ acacheGet2 : String → Option String,
      acacheGet2 (_answer_cache_key md5 q cn sub) = some getErrorAnswer →
      askPost S md5 acacheGet2 rcacheGet embed indexQuery scall gcall q cn sub
        lang img mime false =
        Except.ok ([ViewEvent.answerCacheGet (_answer_cache_key md5 q cn sub)],
          AskOutcome.direct getErrorAnswer true none [])) := by
  have hstream := stream_response_both_raise S scall q ctx cn sub lang img
    mime [] [] hS1 hS2 hne
  have hget := get_response_both_raise S gcall q ctx cn sub lang img mime
    hG1 hG2 hne
  have hjoin : String.join [streamErrorToken] = streamErrorToken := rfl
  have herr : (streamErrorToken == "") = false := rfl
  refine ⟨?_, ?_, ?_, ?_⟩
  · refine ⟨[ViewEvent.answerCacheGet (_answer_cache_key md5 q cn sub),
      ViewEvent.retrieveContext, ViewEvent.yieldToken streamErrorToken,
      ViewEvent.answerCacheSet (_answer_cache_key md5 q cn sub)
        streamErrorToken 3600,
      ViewEvent.createDoubt
        { question := q, answer := streamErrorToken, class_no := cn,
          subject := sub, language := lang, has_image := pyTruthyStr img,
          sources := ctx, from_cache := false, model_used := none }],
      ?_, ?_⟩
    · simp [askPost, hmiss, hret, himg, hstream, yieldedTokens, hjoin, herr]
    · simp
  · refine ⟨[ViewEvent.answerCacheGet (_answer_cache_key md5 q cn sub),
      ViewEvent.retrieveContext,
      ViewEvent.answerCacheSet (_answer_cache_key md5 q cn sub)
        getErrorAnswer 3600,
      ViewEvent.createDoubt
        { question := q, answer := getErrorAnswer, class_no := cn,
          subject := sub, language := lang, has_image := pyTruthyStr img,
          sources := ctx, from_cache := false,
          model_used := some (chosenModel S img) }],
      ?_, ?_⟩
    · simp [askPost, hmiss, hret, himg, hget]
    · simp
  · intro acacheGet2 h2
    simp [askPost, answerCacheHit, himg, h2, herr]
  · intro acacheGet2 h2
    have herr2 : (getErrorAnswer == "") = false := rfl
    simp [askPost, answerCacheHit, himg, h2, herr2]

/-- Claim C9 witness: with a concrete live cache entry holding the streaming
error sentence, a subsequent identical streaming request is served exactly
that sentence from cache, with no retrieval and no generation event. -/
theorem C9_witness :
    askPost {} (fun s => s) (fun _ => some streamErrorToken) (fun _ => none)
      (fun _ => Except.ok [1]) (fun _ _ _ => Except.ok [])
      (fun _ _ => StreamOutcome.raises []) (fun _ _ => CompleteOutcome.raises)
      "q" none none "english" none "image/jpeg" true =
      Except.ok
        ([ViewEvent.answerCacheGet (_answer_cache_key (fun s => s) "q" none
            none),
          ViewEvent.yieldToken streamErrorToken], AskOutcome.streamed) := by
  have h := C9_error_sentence_is_cached {} (fun s => s) (fun _ => none)
    (fun _ => none) (fun _ => Except.ok [1]) (fun _ _ _ => Except.ok [])
    (fun _ _ => StreamOutcome.raises []) (fun _ _ => CompleteOutcome.raises)
    "q" none none "english" none "image/jpeg" []
    [RetEvent.embedCall, RetEvent.indexQueryCall,
     RetEvent.cacheSetChunks (_cache_key (fun s => s) "q" none none) [] 1800]
    rfl rfl rfl (by decide) (fun _ => rfl) (fun _ => rfl) (fun _ => rfl)
    (fun _ => rfl)
  exact h.2.2.1 (fun _ => some streamErrorToken) rfl
